import Mathlib

/-!
Shallow embedding of the codecrafters shell (src/src/main.rs): the
quote/escape-aware tokenizer, the redirection-aware token parser, the
redirection resolver over an abstract file system, and the dispatcher
of the main loop, together with theorems checking the specification's
claims against these definitions.
Strings are modelled as lists of characters.
-/

namespace CodecraftersShell

-- Characters that are awkward to write as literals.
def dquote : Char := Char.ofNat 34

def squote : Char := Char.ofNat 39

def bslash : Char := Char.ofNat 92

def btick : Char := Char.ofNat 96

def str (s : String) : List Char := s.data

/-- Rust's char::is_whitespace: the Unicode White_Space property. -/
def rustIsWhitespace (c : Char) : Bool :=
  let n := c.toNat
  (9 ≤ n && n ≤ 13) || n = 32 || n = 0x85 || n = 0xA0 || n = 0x1680 ||
  (0x2000 ≤ n && n ≤ 0x200A) || n = 0x2028 || n = 0x2029 || n = 0x202F ||
  n = 0x205F || n = 0x3000

/-- The tokenizer states (enum TokenizerState, main.rs lines 10-17). -/
inductive TokenizerState
  | inSingleQuote
  | inDoubleQuote
  | backSlashInDoubleQuote
  | out
  | backSlashOutsideQuote
deriving DecidableEq

/-- The mutable scanning state of tokenize_input: the emitted tokens,
the current token buffer and the state enum. -/
structure ScanState where
  tokens : List (List Char)
  cur : List Char
  state : TokenizerState
deriving DecidableEq

/-- One iteration of the for-loop of tokenize_input (main.rs lines 31-94),
mirroring the match arms in order. -/
def tokStep (s : ScanState) (ch : Char) : ScanState :=
  match s.state with
  | .out =>
    if ch = dquote then { s with state := .inDoubleQuote }
    else if ch = squote then { s with state := .inSingleQuote }
    else if rustIsWhitespace ch then
      (if s.cur ≠ [] then { s with tokens := s.tokens ++ [s.cur], cur := [] } else s)
    else if ch = bslash then { s with state := .backSlashOutsideQuote }
    else { s with cur := s.cur ++ [ch] }
  | .backSlashOutsideQuote =>
    { s with cur := s.cur ++ [ch], state := .out }
  | .inSingleQuote =>
    if ch = squote then { s with state := .out }
    else { s with cur := s.cur ++ [ch] }
  | .inDoubleQuote =>
    if ch = dquote then { s with state := .out }
    else if ch = bslash then { s with state := .backSlashInDoubleQuote }
    else { s with cur := s.cur ++ [ch] }
  | .backSlashInDoubleQuote =>
    if ch = '$' || ch = btick || ch = bslash || ch = dquote || ch = '\n' then
      { s with cur := s.cur ++ [ch], state := .inDoubleQuote }
    else
      { s with cur := s.cur ++ [bslash, ch], state := .inDoubleQuote }

/-- Scanning a whole line from the initial state (tokens empty, buffer
empty, state Out). -/
def scanLine (cs : List Char) : ScanState :=
  cs.foldl tokStep ⟨[], [], .out⟩

/-- fn tokenize_input (main.rs lines 26-104): scan the line, then flush
a non-empty final buffer. -/
def tokenize_input (cs : List Char) : List (List Char) :=
  if (scanLine cs).cur ≠ [] then (scanLine cs).tokens ++ [(scanLine cs).cur]
  else (scanLine cs).tokens

/-- enum RedirectMode (main.rs lines 119-123). -/
inductive RedirectMode
  | truncate
  | append
deriving DecidableEq

/-- struct Redirection (main.rs lines 112-117). -/
structure Redirection where
  fd : Nat
  mode : RedirectMode
  path : List Char
deriving DecidableEq

/-- The HashMap from descriptor number to Redirection, modelled as an
association list where insertion overwrites. -/
abbrev RedirMap := List (Nat × Redirection)

/-- HashMap::insert semantics: the new binding replaces any old one. -/
def insertRedir (m : RedirMap) (fd : Nat) (r : Redirection) : RedirMap :=
  (fd, r) :: m.filter (fun p => p.1 != fd)

/-- HashMap::get semantics. -/
def lookupRedir : RedirMap → Nat → Option Redirection
  | [], _ => none
  | (k, r) :: m, fd => if k = fd then some r else lookupRedir m fd

/-- struct ParsedCommand (main.rs lines 106-110). -/
structure ParsedCommand where
  argv : List (List Char)
  redirects : RedirMap
deriving DecidableEq

/-- The mutable state of new_token_parser: argv, the pending redirection
operator, and the redirect map. -/
structure ParseState where
  argv : List (List Char)
  pending : Option (Nat × RedirectMode)
  redirects : RedirMap
deriving DecidableEq

/-- The operator-token match arms of new_token_parser
(main.rs lines 182-185). -/
def opOf (t : List Char) : Option (Nat × RedirectMode) :=
  if t = ['>'] || t = ['1', '>'] then some (1, .truncate)
  else if t = ['>', '>'] || t = ['1', '>', '>'] then some (1, .append)
  else if t = ['2', '>'] then some (2, .truncate)
  else if t = ['2', '>', '>'] then some (2, .append)
  else none

/-- One iteration of the for-loop of new_token_parser
(main.rs lines 180-194). -/
def parseStep (s : ParseState) (t : List Char) : ParseState :=
  match opOf t with
  | some p => { s with pending := some p }
  | none =>
    match s.pending with
    | some (fd, mode) =>
      { s with pending := none,
               redirects := insertRedir s.redirects fd ⟨fd, mode, t⟩ }
    | none => { s with argv := s.argv ++ [t] }

/-- Running the parser loop over all tokens from the empty state. -/
def parseRun (ts : List (List Char)) : ParseState :=
  ts.foldl parseStep ⟨[], none, []⟩

/-- fn new_token_parser (main.rs lines 175-201): after the loop, a still
pending redirection operator is a syntax error. -/
def newTokenParser (ts : List (List Char)) : Except String ParsedCommand :=
  if (parseRun ts).pending.isSome then .error "syntax error: redirection without file"
  else .ok ⟨(parseRun ts).argv, (parseRun ts).redirects⟩

/-- Whether an Except result is Ok. -/
def exceptOk : Except String ParsedCommand → Bool
  | .ok _ => true
  | .error _ => false

/-- The argv of an Ok parse result. -/
def exceptArgv : Except String ParsedCommand → Option (List (List Char))
  | .ok pc => some pc.argv
  | .error _ => none

/-- An abstract file system for the redirection resolver: the files as an
association list from path to content, together with the set of paths on
which opening fails (permission, missing parent directory). -/
structure FSM where
  files : List (List Char × List Char)
  badPaths : List (List Char)
deriving DecidableEq

/-- Association-list lookup keyed by a character-list string. -/
def alookup {α : Type} : List (List Char × α) → List Char → Option α
  | [], _ => none
  | (k, v) :: m, q => if k = q then some v else alookup m q

/-- Association-list update keyed by a character-list string; the new
binding replaces any old one. -/
def aset {α : Type} (m : List (List Char × α)) (k : List Char) (v : α) :
    List (List Char × α) :=
  (k, v) :: m.filter (fun p => p.1 != k)

/-- An open file handle: the path and the write position. -/
structure FileHandle where
  path : List Char
  pos : Nat
deriving DecidableEq

/-- fn open_redir (main.rs lines 204-213) over the abstract file system.
Truncate is File::create: create or overwrite with empty content, write
position 0. Append is OpenOptions create+append: create the file empty if
absent, keep it if present, write position at end of file. Opening a bad
path fails. -/
def open_redir (fs : FSM) (r : Redirection) : Except String (FSM × FileHandle) :=
  if fs.badPaths.contains r.path then .error "open failed"
  else
    match r.mode with
    | .truncate => .ok ({ fs with files := aset fs.files r.path [] }, ⟨r.path, 0⟩)
    | .append =>
      match alookup fs.files r.path with
      | some c => .ok (fs, ⟨r.path, c.length⟩)
      | none => .ok ({ fs with files := aset fs.files r.path [] }, ⟨r.path, 0⟩)

/-- The boxed writer returned by writer_for_fd: a redirection file, or one
of the inherited standard streams. -/
inductive Writer
  | fileW (h : FileHandle)
  | stdoutW
  | stderrW
deriving DecidableEq

/-- fn writer_for_fd (main.rs lines 217-230): the redirection file when the
map has an entry for the descriptor, otherwise the inherited stdout for 1,
the inherited stderr for 2, and an unsupported-descriptor error for any
other descriptor. -/
def writer_for_fd (fs : FSM) (m : RedirMap) (fd : Nat) :
    Except String (FSM × Writer) :=
  match lookupRedir m fd with
  | some r =>
    match open_redir fs r with
    | .error e => .error e
    | .ok (fs', h) => .ok (fs', .fileW h)
  | none =>
    match fd with
    | 1 => .ok (fs, .stdoutW)
    | 2 => .ok (fs, .stderrW)
    | _ => .error "unsupported fd"

/-- The output channels a command can write to: the inherited standard
streams or an opened redirection file. -/
inductive Chan
  | stdoutI
  | stderrI
  | fileC (h : FileHandle)
deriving DecidableEq

/-- The channel a Writer writes to. -/
def chanOf : Writer → Chan
  | .fileW h => .fileC h
  | .stdoutW => .stdoutI
  | .stderrW => .stderrI

/-- The observable effects of one command. -/
inductive Eff
  | write (c : Chan) (s : List Char)
  | spawned (cmd : List Char)
  | chdir (p : List Char)
deriving DecidableEq

/-- How one iteration of the main loop ends: go round the loop again, exit
the process with status 0 (std::process::exit(0)), panic (an unwrap
failure), or propagate an error out of main through the question-mark
operator. -/
inductive Outcome
  | next
  | exitZero
  | panicked
  | fatalErr
deriving DecidableEq

/-- The environment the dispatcher consults: the PATH executable index,
HOME, the current directory (None models an env::current_dir error), the
canonicalization oracle for cd (absent means the error branch), the set of
canonical paths on which set_current_dir fails, and whether spawning the
child fails. -/
structure Env where
  path_commands : List (List Char × List Char)
  home : Option (List Char)
  currentDir : Option (List Char)
  canon : List (List Char × List Char)
  setCwdFails : List (List Char)
  spawnFails : Bool
deriving DecidableEq

/-- static BUILTIN_COMMANDS (main.rs line 234). -/
def BUILTIN_COMMANDS : List (List Char) :=
  [str "type", str "echo", str "exit", str "pwd"]

/-- The message computed by the type builtin (main.rs lines 311-317). -/
def typeMsg (env : Env) (query : List Char) : List Char :=
  if BUILTIN_COMMANDS.contains query then query ++ str " is a shell builtin"
  else
    match alookup env.path_commands query with
    | some p => query ++ str " is " ++ p
    | none => query ++ str ": not found"

/-- The type builtin branch (main.rs lines 302-320). -/
def typeB (env : Env) (fs : FSM) (args : List (List Char)) (rm : RedirMap) :
    Outcome × List Eff × FSM :=
  match args with
  | [] =>
    match writer_for_fd fs rm 2 with
    | .error _ => (.fatalErr, [], fs)
    | .ok (fs', w) => (.next, [.write (chanOf w) (str "type: missing operand")], fs')
  | query :: _ =>
    match writer_for_fd fs rm 1 with
    | .error _ => (.fatalErr, [], fs)
    | .ok (fs', w) => (.next, [.write (chanOf w) (typeMsg env query)], fs')

/-- The echo builtin branch (main.rs lines 322-327): resolve descriptor 1,
resolve and drop descriptor 2, write the space-joined arguments. -/
def echoB (fs : FSM) (args : List (List Char)) (rm : RedirMap) :
    Outcome × List Eff × FSM :=
  match writer_for_fd fs rm 1 with
  | .error _ => (.fatalErr, [], fs)
  | .ok (fs1, w1) =>
    match writer_for_fd fs1 rm 2 with
    | .error _ => (.fatalErr, [], fs1)
    | .ok (fs2, _) =>
      (.next, [.write (chanOf w1) (List.intercalate [' '] args)], fs2)

/-- The exit builtin branch (main.rs lines 329-335): exit the process when
the first argument is the literal 0, otherwise print a hint with println
(to the inherited stdout, ignoring redirections). -/
def exitB (fs : FSM) (args : List (List Char)) : Outcome × List Eff × FSM :=
  if args.head? = some (str "0") then (.exitZero, [], fs)
  else (.next, [.write .stdoutI (str "Did you mean `exit 0`?")], fs)

/-- The pwd builtin branch (main.rs lines 337-348). -/
def pwdB (env : Env) (fs : FSM) (rm : RedirMap) : Outcome × List Eff × FSM :=
  match env.currentDir with
  | some path =>
    match writer_for_fd fs rm 1 with
    | .error _ => (.fatalErr, [], fs)
    | .ok (fs', w) => (.next, [.write (chanOf w) path], fs')
  | none =>
    match writer_for_fd fs rm 2 with
    | .error _ => (.fatalErr, [], fs)
    | .ok (fs', w) => (.next, [.write (chanOf w) (str "pwd: error")], fs')

/-- The query the cd builtin resolves (main.rs lines 353-359): the first
argument, with the tilde and the missing-argument case replaced by HOME,
or by the root when HOME is unset. -/
def cdQuery (env : Env) (args : List (List Char)) : List Char :=
  match args.head? with
  | some t => if t = str "~" then env.home.getD (str "/") else t
  | none => env.home.getD (str "/")

/-- The cd builtin branch (main.rs lines 350-366): resolve the tilde and
the missing-argument fallback from HOME (or the root), then canonicalize;
a canonicalization error is reported with eprintln, and a
set_current_dir failure panics (unwrap). -/
def cdB (env : Env) (fs : FSM) (args : List (List Char)) :
    Outcome × List Eff × FSM :=
  match alookup env.canon (cdQuery env args) with
  | none =>
    (.next,
     [.write .stderrI (str "cd: " ++ cdQuery env args ++ str ": No such file or directory")],
     fs)
  | some path =>
    if env.setCwdFails.contains path then (.panicked, [], fs)
    else (.next, [.chdir path], fs)

/-- The open-and-wire loop over redirects.values() in the external-command
branch (main.rs lines 377-387): open each redirection (the question-mark
operator turns a failure into an error out of main) and report unsupported
descriptors with eprintln. Returns the file system reached, the effects
emitted, and the first open error if any. -/
def openLoop (cmd : List Char) (fs : FSM) :
    List (Nat × Redirection) → FSM × List Eff × Option String
  | [] => (fs, [], none)
  | (_, r) :: rest =>
    match open_redir fs r with
    | .error e => (fs, [], some e)
    | .ok (fs', _) =>
      let unsup : List Eff :=
        if r.fd = 1 || r.fd = 2 then []
        else [.write .stderrI (cmd ++ str ": unsupported file descriptor")]
      let (fs'', effs, err) := openLoop cmd fs' rest
      (fs'', unsup ++ effs, err)

/-- The external-command branch (main.rs lines 369-395): spawn the indexed
executable with the opened redirections, report a spawn failure with
eprintln, and print a not-found diagnostic with println (inherited stdout)
when the command is not in the index. -/
def externalB (env : Env) (fs : FSM) (cmd : List Char) (rm : RedirMap) :
    Outcome × List Eff × FSM :=
  match alookup env.path_commands cmd with
  | some _ =>
    let (fs', effs, err) := openLoop cmd fs rm
    match err with
    | some _ => (.fatalErr, effs, fs')
    | none =>
      if env.spawnFails then
        (.next, effs ++ [.write .stderrI (cmd ++ str ": spawn error")], fs')
      else (.next, effs ++ [.spawned cmd], fs')
  | none => (.next, [.write .stdoutI (cmd ++ str ": not found")], fs)

/-- The dispatcher: the match on the command name (main.rs lines 301-396). -/
def dispatch (env : Env) (fs : FSM) (cmd : List Char) (args : List (List Char))
    (rm : RedirMap) : Outcome × List Eff × FSM :=
  if cmd = str "type" then typeB env fs args rm
  else if cmd = str "echo" then echoB fs args rm
  else if cmd = str "exit" then exitB fs args
  else if cmd = str "pwd" then pwdB env fs rm
  else if cmd = str "cd" then cdB env fs args
  else externalB env fs cmd rm

/-- One iteration of the main loop on a (trimmed) input line
(main.rs lines 282-396): tokenize, skip empty token lists, parse (a parse
error is printed with eprintln and the loop continues), then take the
command name with unwrap (a panic when argv is empty) and dispatch. -/
def runCommand (env : Env) (fs : FSM) (line : List Char) :
    Outcome × List Eff × FSM :=
  if tokenize_input line = [] then (.next, [], fs)
  else
    match newTokenParser (tokenize_input line) with
    | .error e => (.next, [.write .stderrI e.data], fs)
    | .ok pc =>
      match pc.argv with
      | [] => (.panicked, [], fs)
      | cmd :: args => dispatch env fs cmd args pc.redirects

/-- An environment with an empty executable index and no special oracle
behavior. -/
def env0 : Env := ⟨[], none, none, [], [], false⟩

/-- An environment whose index contains somecmd but where spawning fails. -/
def envSpawn : Env := ⟨[(str "somecmd", str "/bin/somecmd")], none, none, [], [], true⟩

/-- An empty file system on which every open succeeds. -/
def fs0 : FSM := ⟨[], []⟩

/-- A file system on which opening the path p fails. -/
def fsBad : FSM := ⟨[], [str "p"]⟩

/-- An environment whose executable index contains the name cd. -/
def envCd : Env := ⟨[(str "cd", str "/usr/bin/cd")], none, none, [], [], false⟩

/-- Modelled from the claim's words: the recognized redirection operator
tokens of the parser. -/
def specIsOp (t : List Char) : Bool :=
  t = ['>'] || t = ['1', '>'] || t = ['>', '>'] || t = ['1', '>', '>'] ||
  t = ['2', '>'] || t = ['2', '>', '>']

/-- Whether a token stream ends in a redirection operator token. -/
def lastIsOp : List (List Char) → Bool
  | [] => false
  | [t] => specIsOp t
  | _ :: t2 :: ts => lastIsOp (t2 :: ts)

/-- Modelled from the claim's words: the argument vector keeps exactly the
tokens that are neither recognized operators nor the path consumed by a
pending redirection operator. -/
def argsOnly : Bool → List (List Char) → List (List Char)
  | _, [] => []
  | pending, t :: ts =>
    if specIsOp t then argsOnly true ts
    else if pending then argsOnly false ts
    else t :: argsOnly false ts

/-- Modelled from the spec's words: when one loop iteration is requested to
exit the process, namely when the line parses and the argument vector
starts with exit followed by the literal 0. -/
def exitRequested (ts : List (List Char)) : Bool :=
  match newTokenParser ts with
  | .error _ => false
  | .ok pc =>
    decide (pc.argv.head? = some (str "exit")) &&
    decide ((pc.argv.drop 1).head? = some (str "0"))

/-- Modelled from the spec's words (section 4.3): the redirection resolver
opens the mapped path, truncate mode creating or overwriting the file,
append mode creating the file if absent and positioning writes at
end-of-file; with no mapping it falls back to inherited stdout for
descriptor 1, inherited stderr for descriptor 2, and an
unsupported-descriptor error otherwise. -/
def resolveSpec (fs : FSM) (m : RedirMap) (fd : Nat) :
    Except String (FSM × Writer) :=
  match lookupRedir m fd with
  | some r =>
    if fs.badPaths.contains r.path then .error "open failed"
    else if r.mode = .truncate then
      .ok ({ fs with files := aset fs.files r.path [] }, .fileW ⟨r.path, 0⟩)
    else
      match alookup fs.files r.path with
      | some c => .ok (fs, .fileW ⟨r.path, c.length⟩)
      | none => .ok ({ fs with files := aset fs.files r.path [] }, .fileW ⟨r.path, 0⟩)
  | none =>
    if fd = 1 then .ok (fs, .stdoutW)
    else if fd = 2 then .ok (fs, .stderrW)
    else .error "unsupported fd"

/-- Whether an outcome continues the loop. -/
def isNext : Outcome → Bool
  | .next => true
  | _ => false

/-- Whether an outcome exits the process with status 0. -/
def isExitZero : Outcome → Bool
  | .exitZero => true
  | _ => false

/-- Whether an effect list contains no spawned child process. -/
def noSpawn (effs : List Eff) : Bool :=
  effs.all (fun e => match e with | .spawned _ => false | _ => true)

theorem opOf_isSome_eq_specIsOp (t : List Char) : (opOf t).isSome = specIsOp t := by
  unfold opOf specIsOp
  by_cases h1 : t = ['>'] <;> by_cases h2 : t = ['1', '>'] <;>
    by_cases h3 : t = ['>', '>'] <;> by_cases h4 : t = ['1', '>', '>'] <;>
    by_cases h5 : t = ['2', '>'] <;> by_cases h6 : t = ['2', '>', '>'] <;>
    simp [h1, h2, h3, h4, h5, h6]

theorem parseStep_pending (s : ParseState) (t : List Char) :
    (parseStep s t).pending.isSome = specIsOp t := by
  rw [← opOf_isSome_eq_specIsOp]
  cases h : opOf t with
  | some p => simp [parseStep, h]
  | none =>
    cases hp : s.pending with
    | some p => obtain ⟨fd, mode⟩ := p; simp [parseStep, h, hp]
    | none => simp [parseStep, h, hp]

theorem parse_pending_eq (ts : List (List Char)) (s : ParseState) :
    (ts.foldl parseStep s).pending.isSome =
      (match ts with
       | [] => s.pending.isSome
       | _ :: _ => lastIsOp ts) := by
  induction ts generalizing s with
  | nil => rfl
  | cons t ts ih =>
    rw [List.foldl_cons, ih]
    cases ts with
    | nil => simp [lastIsOp, parseStep_pending]
    | cons t2 ts2 => rfl

theorem parseStep_argv (s : ParseState) (t : List Char) :
    (parseStep s t).argv =
      (if specIsOp t then s.argv
       else if s.pending.isSome then s.argv
       else s.argv ++ [t]) := by
  rw [← opOf_isSome_eq_specIsOp]
  cases h : opOf t with
  | some p => simp [parseStep, h]
  | none =>
    cases hp : s.pending with
    | some p => obtain ⟨fd, mode⟩ := p; simp [parseStep, h, hp]
    | none => simp [parseStep, h, hp]

theorem argsOnly_cons (b : Bool) (t : List Char) (ts : List (List Char)) :
    argsOnly b (t :: ts) =
      (if specIsOp t then argsOnly true ts
       else if b then argsOnly false ts else t :: argsOnly false ts) := rfl

theorem parse_argv_eq (ts : List (List Char)) (s : ParseState) :
    (ts.foldl parseStep s).argv = s.argv ++ argsOnly s.pending.isSome ts := by
  induction ts generalizing s with
  | nil => simp [argsOnly]
  | cons t ts ih =>
    rw [List.foldl_cons, ih, parseStep_pending, parseStep_argv, argsOnly_cons]
    cases hop : specIsOp t with
    | true => simp [hop]
    | false => cases hp : s.pending.isSome <;> simp [hop, hp]

/-- C6: the parser fails exactly when the token stream ends in a pending
redirection operator (equivalently, the last token is one of the six
operator tokens); on every other stream it succeeds, and the argument
vector keeps exactly the tokens that are neither operators nor a pending
redirection's path. -/
theorem c6_parse_error_iff (ts : List (List Char)) :
    exceptOk (newTokenParser ts) = !lastIsOp ts ∧
    exceptArgv (newTokenParser ts) =
      (if lastIsOp ts then none else some (argsOnly false ts)) := by
  have hpend : (parseRun ts).pending.isSome = lastIsOp ts := by
    unfold parseRun
    rw [parse_pending_eq]
    cases ts with
    | nil => rfl
    | cons t ts2 => rfl
  have hargv : (parseRun ts).argv = argsOnly false ts := by
    unfold parseRun
    rw [parse_argv_eq]
    rfl
  unfold newTokenParser
  rw [hpend, hargv]
  cases h : lastIsOp ts <;> simp [h, exceptOk, exceptArgv]

theorem scan_inSingleQuote (cs : List Char) (toks : List (List Char)) (cur : List Char)
    (h : cs.contains squote = false) :
    cs.foldl tokStep ⟨toks, cur, .inSingleQuote⟩ = ⟨toks, cur ++ cs, .inSingleQuote⟩ := by
  induction cs generalizing cur with
  | nil => simp
  | cons c cs ih =>
    rw [List.contains_cons] at h
    have hc : (squote == c) = false := by
      cases hb : squote == c
      · rfl
      · rw [hb] at h; simp at h
    have hcs : cs.contains squote = false := by
      cases hb : cs.contains squote
      · rfl
      · rw [hb] at h; simp at h
    have hne : c ≠ squote := by
      intro he
      rw [he] at hc
      simp at hc
    rw [List.foldl_cons]
    have hstep : tokStep ⟨toks, cur, .inSingleQuote⟩ c = ⟨toks, cur ++ [c], .inSingleQuote⟩ := by
      unfold tokStep
      simp [hne]
    rw [hstep, ih (cur ++ [c]) hcs]
    simp

/-- C7: the tokenizer is a total function that at end of input flushes a
non-empty token buffer as the final token, and an unterminated single
quote simply consumes the rest of the line into one token (no error is
possible: tokenize_input is a function into token lists). -/
theorem c7_tokenizer_total_flush :
    (∀ cs : List Char,
        tokenize_input cs =
          (scanLine cs).tokens ++
            (if (scanLine cs).cur = [] then [] else [(scanLine cs).cur])) ∧
    (∀ cs : List Char, cs.contains squote = false →
        tokenize_input (squote :: cs) = (if cs = [] then [] else [cs])) := by
  constructor
  · intro cs
    unfold tokenize_input
    by_cases h : (scanLine cs).cur = [] <;> simp [h]
  · intro cs h
    have hfirst : tokStep ⟨[], [], .out⟩ squote = ⟨[], [], .inSingleQuote⟩ := by decide
    unfold tokenize_input scanLine
    rw [List.foldl_cons, hfirst, scan_inSingleQuote cs [] [] h]
    by_cases hc : cs = [] <;> simp [hc]

theorem c7_witness :
    (str "abc").contains squote = false ∧
    tokenize_input (squote :: str "abc") = [str "abc"] := by
  refine ⟨by decide, ?_⟩
  rw [c7_tokenizer_total_flush.2 (str "abc") (by decide)]
  decide

theorem scanLine_append_one (cs : List Char) (c : Char) :
    scanLine (cs ++ [c]) = tokStep (scanLine cs) c := by
  unfold scanLine
  rw [List.foldl_append]
  rfl

/-- C9: a line that ends with a pending backslash (entered from the
Unquoted or the DoubleQuoted context) tokenizes exactly like the line
without that backslash: the pending backslash is discarded and the
accumulated token is still emitted. -/
theorem c9_trailing_backslash_dropped (cs : List Char)
    (h : (scanLine cs).state = TokenizerState.out ∨
         (scanLine cs).state = TokenizerState.inDoubleQuote) :
    tokenize_input (cs ++ [bslash]) = tokenize_input cs := by
  unfold tokenize_input
  rw [scanLine_append_one]
  cases hst : scanLine cs with
  | mk toks cur st =>
    rw [hst] at h
    rcases h with h | h
    · have h2 : st = TokenizerState.out := h
      subst h2
      have hs : tokStep ⟨toks, cur, TokenizerState.out⟩ bslash =
          ⟨toks, cur, TokenizerState.backSlashOutsideQuote⟩ := rfl
      rw [hs]
    · have h2 : st = TokenizerState.inDoubleQuote := h
      subst h2
      have hs : tokStep ⟨toks, cur, TokenizerState.inDoubleQuote⟩ bslash =
          ⟨toks, cur, TokenizerState.backSlashInDoubleQuote⟩ := rfl
      rw [hs]

theorem c9_witness :
    ((scanLine (str "ab")).state = TokenizerState.out ∨
      (scanLine (str "ab")).state = TokenizerState.inDoubleQuote) ∧
    tokenize_input (str "ab" ++ [bslash]) = [str "ab"] := by
  refine ⟨Or.inl (by decide), ?_⟩
  rw [c9_trailing_backslash_dropped (str "ab") (Or.inl (by decide))]
  decide

/-- C8: the redirection resolver agrees everywhere with the spec-side
description: a mapped descriptor opens the mapped path (truncate creates
or overwrites the file; append creates it if absent and positions writes
at end-of-file), an unmapped descriptor 1 or 2 falls back to the inherited
standard stream, and any other unmapped descriptor is an error. -/
theorem c8_resolver_refines_spec (fs : FSM) (m : RedirMap) (fd : Nat) :
    writer_for_fd fs m fd = resolveSpec fs m fd := by
  unfold writer_for_fd resolveSpec open_redir
  cases hr : lookupRedir m fd with
  | some r =>
    by_cases hb : r.path ∈ fs.badPaths
    · simp [hb]
    · cases hm : r.mode with
      | truncate => simp [hb, hm]
      | append =>
        cases ha : alookup fs.files r.path with
        | some c => simp [hb, hm, ha]
        | none => simp [hb, hm, ha]
  | none =>
    rcases fd with _ | _ | _ | fd <;> rfl

/-- C1: the code-side invariant fails: on the non-empty token input
[>, out] the parser succeeds with an empty argument vector, and the main
loop then panics on the unwrap of the first argument (input line
"> out"), contradicting the comment justifying that unwrap. -/
theorem c1_empty_argv_panics :
    exceptOk (newTokenParser [str ">", str "out"]) = true ∧
    exceptArgv (newTokenParser [str ">", str "out"]) = some [] ∧
    (runCommand env0 fs0 (str "> out")).1 = Outcome.panicked := by decide

/-- C5 counterexample: inside double quotes the code also treats a
backslash before a backslash as an escape (the claim's escape set omits
the backslash): tokenizing the double-quoted body a-backslash-backslash-b
yields the single token a-backslash-b, not the claim's prediction
a-backslash-backslash-b. -/
theorem c5_counterexample :
    tokenize_input [dquote, 'a', bslash, bslash, 'b', dquote] = [['a', bslash, 'b']] ∧
    (decide (tokenize_input [dquote, 'a', bslash, bslash, 'b', dquote] =
      [['a', bslash, bslash, 'b']])) = false := by decide

/-- C5 amended: in the DoubleQuoted state a backslash followed by one of
the five characters dollar, backtick, backslash, double quote, newline
appends only that character, and a backslash followed by any other
character appends both the backslash and the character; the claim's two
examples hold. -/
theorem c5_amended_escape_set :
    (∀ (toks : List (List Char)) (cur : List Char) (c : Char),
        tokStep ⟨toks, cur, TokenizerState.backSlashInDoubleQuote⟩ c =
          ⟨toks,
           cur ++ (if c = '$' || c = btick || c = bslash || c = dquote || c = '\n'
                   then [c] else [bslash, c]),
           TokenizerState.inDoubleQuote⟩) ∧
    tokenize_input [dquote, 'a', bslash, '$', 'b', dquote] = [['a', '$', 'b']] ∧
    tokenize_input [dquote, 'a', bslash, 'q', 'b', dquote] = [['a', bslash, 'q', 'b']] := by
  refine ⟨?_, by decide, by decide⟩
  intro toks cur c
  unfold tokStep
  cases h : (c = '$' || c = btick || c = bslash || c = dquote || c = '\n') <;> simp [h]

/-- C4 counterexample: exit invoked with the two arguments 0 and 1 still
terminates the process with status 0; the claim says any form other than
exactly one argument 0 keeps the shell running. -/
theorem c4_counterexample :
    (runCommand env0 fs0 (str "exit 0 1")).1 = Outcome.exitZero ∧
    isNext (runCommand env0 fs0 (str "exit 0 1")).1 = false := by decide

/-- C4 amended: the exit builtin terminates the shell (with status 0) if
and only if its first argument is the literal 0, ignoring any further
arguments; otherwise it prints the hint and the shell keeps running. -/
theorem c4_amended_exit_first_arg (env : Env) (fs : FSM)
    (args : List (List Char)) (rm : RedirMap) :
    dispatch env fs (str "exit") args rm =
      (if args.head? = some (str "0") then (Outcome.exitZero, ([] : List Eff), fs)
       else (Outcome.next, [Eff.write Chan.stdoutI (str "Did you mean `exit 0`?")], fs)) := by
  unfold dispatch
  rw [if_neg (by decide), if_neg (by decide), if_pos rfl]
  rfl

/-- C3 counterexample: the unknown command foobarbaz with an explicit
descriptor-2 redirection writes its not-found diagnostic to the inherited
standard output (println), not to the redirection target for descriptor 2;
the file is never even opened. -/
theorem c3_counterexample :
    runCommand env0 fs0 (str "foobarbaz 2> e") =
      (Outcome.next, [Eff.write Chan.stdoutI (str "foobarbaz: not found")], fs0) ∧
    noSpawn [Eff.write Chan.stdoutI (str "foobarbaz: not found")] = true := by decide

/-- C3 amended: for every command name that is none of the five dispatched
builtins and is absent from the executable index, the dispatcher writes
the not-found diagnostic to the inherited standard output, ignoring any
redirections, and the shell continues with the next line. -/
theorem c3_amended_not_found_to_stdout (env : Env) (fs : FSM) (cmd : List Char)
    (args : List (List Char)) (rm : RedirMap)
    (h1 : cmd ≠ str "type") (h2 : cmd ≠ str "echo") (h3 : cmd ≠ str "exit")
    (h4 : cmd ≠ str "pwd") (h5 : cmd ≠ str "cd")
    (h6 : alookup env.path_commands cmd = none) :
    dispatch env fs cmd args rm =
      (Outcome.next, [Eff.write Chan.stdoutI (cmd ++ str ": not found")], fs) := by
  unfold dispatch externalB
  rw [if_neg h1, if_neg h2, if_neg h3, if_neg h4, if_neg h5, h6]

theorem c3_amended_witness :
    alookup env0.path_commands (str "qux") = none ∧
    dispatch env0 fs0 (str "qux") [] [(2, ⟨2, RedirectMode.truncate, str "e"⟩)] =
      (Outcome.next, [Eff.write Chan.stdoutI (str "qux: not found")], fs0) :=
  ⟨by decide,
   c3_amended_not_found_to_stdout env0 fs0 (str "qux") []
     [(2, ⟨2, RedirectMode.truncate, str "e"⟩)]
     (by decide) (by decide) (by decide) (by decide) (by decide) (by decide)⟩

theorem typeB_not_exitZero (env : Env) (fs : FSM) (args : List (List Char))
    (rm : RedirMap) : isExitZero (typeB env fs args rm).1 = false := by
  unfold typeB
  repeat' split
  all_goals rfl

theorem echoB_not_exitZero (fs : FSM) (args : List (List Char)) (rm : RedirMap) :
    isExitZero (echoB fs args rm).1 = false := by
  unfold echoB
  repeat' split
  all_goals rfl

theorem pwdB_not_exitZero (env : Env) (fs : FSM) (rm : RedirMap) :
    isExitZero (pwdB env fs rm).1 = false := by
  unfold pwdB
  repeat' split
  all_goals rfl

theorem cdB_not_exitZero (env : Env) (fs : FSM) (args : List (List Char)) :
    isExitZero (cdB env fs args).1 = false := by
  unfold cdB
  repeat' split
  all_goals rfl

theorem externalB_not_exitZero (env : Env) (fs : FSM) (cmd : List Char)
    (rm : RedirMap) : isExitZero (externalB env fs cmd rm).1 = false := by
  unfold externalB
  repeat' split
  all_goals rfl

theorem dispatch_exitZero (env : Env) (fs : FSM) (cmd : List Char)
    (args : List (List Char)) (rm : RedirMap) :
    isExitZero (dispatch env fs cmd args rm).1 =
      (decide (cmd = str "exit") && decide (args.head? = some (str "0"))) := by
  by_cases h3 : cmd = str "exit"
  · subst h3
    unfold dispatch
    rw [if_neg (by decide), if_neg (by decide), if_pos rfl,
        decide_eq_true (show str "exit" = str "exit" from rfl), Bool.true_and]
    unfold exitB
    by_cases h : args.head? = some (str "0")
    · rw [if_pos h, decide_eq_true h]
      rfl
    · rw [if_neg h, decide_eq_false h]
      rfl
  · rw [decide_eq_false h3, Bool.false_and]
    unfold dispatch
    by_cases h1 : cmd = str "type"
    · rw [if_pos h1]
      exact typeB_not_exitZero env fs args rm
    rw [if_neg h1]
    by_cases h2 : cmd = str "echo"
    · rw [if_pos h2]
      exact echoB_not_exitZero fs args rm
    rw [if_neg h2, if_neg h3]
    by_cases h4 : cmd = str "pwd"
    · rw [if_pos h4]
      exact pwdB_not_exitZero env fs rm
    rw [if_neg h4]
    by_cases h5 : cmd = str "cd"
    · rw [if_pos h5]
      exact cdB_not_exitZero env fs args
    rw [if_neg h5]
    exact externalB_not_exitZero env fs cmd rm

/-- C2 counterexample: a failure to open a redirection target does not
leave the shell running: on the line echo hi > p with the path p
unopenable, the error from writer_for_fd propagates out of main through
the question-mark operator and the process terminates, and not through
exit 0. -/
theorem c2_counterexample :
    (runCommand env0 fsBad (str "echo hi > p")).1 = Outcome.fatalErr ∧
    isNext (runCommand env0 fsBad (str "echo hi > p")).1 = false ∧
    isExitZero (runCommand env0 fsBad (str "echo hi > p")).1 = false := by decide

/-- C2 amended: the shell exits with status 0 exactly when a line parses
into an argument vector beginning exit 0; a parse error, a spawn failure,
a cd canonicalization failure and an unknown command all leave the shell
running; but a failure to open a redirection target terminates the shell
abnormally (the error propagates out of main). -/
theorem c2_amended_exit_behavior :
    (∀ (env : Env) (fs : FSM) (line : List Char),
        isExitZero (runCommand env fs line).1 = exitRequested (tokenize_input line)) ∧
    (runCommand env0 fs0 (str "echo hi >")).1 = Outcome.next ∧
    (runCommand envSpawn fs0 (str "somecmd")).1 = Outcome.next ∧
    (runCommand env0 fs0 (str "cd nope")).1 = Outcome.next ∧
    (runCommand env0 fs0 (str "nosuchcmd")).1 = Outcome.next ∧
    (runCommand env0 fsBad (str "echo hi 1> p")).1 = Outcome.fatalErr := by
  refine ⟨?_, by decide, by decide, by decide, by decide, by decide⟩
  intro env fs line
  unfold runCommand exitRequested
  by_cases ht : tokenize_input line = []
  · rw [if_pos ht, ht]
    rfl
  · rw [if_neg ht]
    cases hp : newTokenParser (tokenize_input line) with
    | error e => rfl
    | ok pc =>
      show isExitZero
          (match pc.argv with
           | [] => (Outcome.panicked, [], fs)
           | cmd :: args => dispatch env fs cmd args pc.redirects).1 =
        (decide (pc.argv.head? = some (str "exit")) &&
         decide ((List.drop 1 pc.argv).head? = some (str "0")))
      cases ha : pc.argv with
      | nil => rfl
      | cons cmd args =>
        rw [dispatch_exitZero]
        simp

/-- C10: the builtin set consulted by type is exactly type, echo, exit,
pwd and excludes cd, so type cd reports an executable path or not-found
and never a shell builtin, while the dispatcher sends the command cd to
the in-process cd branch (never spawning an external executable) even
when the executable index has an entry named cd. -/
theorem c10_cd_not_builtin :
    BUILTIN_COMMANDS = [str "type", str "echo", str "exit", str "pwd"] ∧
    BUILTIN_COMMANDS.contains (str "cd") = false ∧
    (∀ env : Env, typeMsg env (str "cd") =
       (match alookup env.path_commands (str "cd") with
        | some p => str "cd is " ++ p
        | none => str "cd: not found")) ∧
    (∀ (env : Env) (fs : FSM) (args : List (List Char)) (rm : RedirMap),
        dispatch env fs (str "cd") args rm = cdB env fs args) ∧
    (∀ (env : Env) (fs : FSM) (args : List (List Char)) (rm : RedirMap),
        noSpawn (dispatch env fs (str "cd") args rm).2.1 = true) := by
  refine ⟨rfl, by decide, ?_, ?_, ?_⟩
  · intro env
    unfold typeMsg
    rw [if_neg (by decide)]
    cases h : alookup env.path_commands (str "cd") with
    | some p => rfl
    | none => rfl
  · intro env fs args rm
    unfold dispatch
    rw [if_neg (by decide), if_neg (by decide), if_neg (by decide),
        if_neg (by decide), if_pos rfl]
  · intro env fs args rm
    unfold dispatch
    rw [if_neg (by decide), if_neg (by decide), if_neg (by decide),
        if_neg (by decide), if_pos rfl]
    unfold cdB
    repeat' split
    all_goals rfl

end CodecraftersShell
